import Mathlib

/-!
Verification development for the math-problem backend (`src/server.js`).

The file shallowly embeds the behaviour of the `/generate-problem` request
handler and its retrying generation routine. Pure JavaScript string
operations are translated to executable Lean functions on `String` /
`List Char`; the outbound HTTP call, the JSON parser and the random number
generator are modelled as explicit oracles supplied as arguments, so that
a run of the handler is a pure function of the request, the oracles and
the mutable `questionHistory` state.
-/

set_option autoImplicit false

namespace LCPS

/-! ## JavaScript string primitives -/

/-- Character class of the JavaScript regular-expression escape `\s`
(ECMAScript WhiteSpace ∪ LineTerminator): space, tab, LF, VT, FF, CR,
NBSP, and the Unicode space separators. -/
def isJsWhitespace (c : Char) : Bool :=
  c.toNat = 0x20 || c.toNat = 0x9 || c.toNat = 0xA || c.toNat = 0xB ||
  c.toNat = 0xC || c.toNat = 0xD || c.toNat = 0xA0 || c.toNat = 0x1680 ||
  (0x2000 ≤ c.toNat && c.toNat ≤ 0x200A) ||
  c.toNat = 0x2028 || c.toNat = 0x2029 || c.toNat = 0x202F ||
  c.toNat = 0x205F || c.toNat = 0x3000 || c.toNat = 0xFEFF

/-- Lower-casing of a single character (ASCII range, as relevant after the
`[^a-z0-9\s]` filter of `normalizeQuestion`); models
`String.prototype.toLowerCase` on the inputs the server manipulates. -/
def jsLowerChar (c : Char) : Char := c.toLower

/-- Models `s.trim()`: strip `\s` characters from both ends. -/
def jsTrim (s : String) : String :=
  (((s.toList.dropWhile isJsWhitespace).reverse.dropWhile isJsWhitespace).reverse).asString

/-- Models `s.toLowerCase()` (ASCII case mapping). -/
def jsToLower (s : String) : String :=
  (s.toList.map jsLowerChar).asString

/-- Characters kept by `question.replace(/[^a-z0-9\s]/g, '')`:
lowercase ASCII letters, digits, and `\s` whitespace. -/
def keepAlnumWs (c : Char) : Bool :=
  ('a' ≤ c && c ≤ 'z') || ('0' ≤ c && c ≤ '9') || isJsWhitespace c

/-- Splitting with the semantics of JavaScript `str.split(/\s+/)`:
maximal whitespace runs are separators, and a separator match at the very
start (or end) of the string contributes a leading (or trailing) empty
token. The boolean argument records whether the previous character was
part of a whitespace run. -/
def jsSplitWsAux : Bool → List Char → List Char → List (List Char)
  | _, [], cur => [cur.reverse]
  | inWs, c :: cs, cur =>
    if isJsWhitespace c then
      if inWs then jsSplitWsAux true cs cur
      else cur.reverse :: jsSplitWsAux true cs []
    else jsSplitWsAux false cs (c :: cur)

/-- Entry point for the JavaScript-style split on `\s+`. -/
def jsSplitWs (l : List Char) : List (List Char) :=
  jsSplitWsAux false l []

/-- Splitting a character list into its maximal non-whitespace runs, the
way the specification words "splitting on whitespace runs" read: no empty
tokens are ever produced. -/
def specSplitWsAux : List Char → List Char → List (List Char)
  | [], cur => if cur.isEmpty then [] else [cur.reverse]
  | c :: cs, cur =>
    if isJsWhitespace c then
      if cur.isEmpty then specSplitWsAux cs []
      else cur.reverse :: specSplitWsAux cs []
    else specSplitWsAux cs (c :: cur)

/-- Entry point for the specification-style whitespace split. -/
def specSplitWs (l : List Char) : List (List Char) :=
  specSplitWsAux l []

/-- Boundary condition under which the two split styles coincide: the
character list (a question after lower-casing and filtering) neither
starts nor ends with a whitespace character. Holds vacuously for the
empty list. -/
def noBoundaryWs (l : List Char) : Bool :=
  (l.head?.all fun c => !isJsWhitespace c) && (l.getLast?.all fun c => !isJsWhitespace c)

/-- Sorting of the token list, models `.sort()`: the default JavaScript
comparator is lexicographic by code unit, which on these tokens is the
lexicographic order on `List Char` by code point. -/
def sortTokens (ts : List (List Char)) : List (List Char) :=
  List.insertionSort (· ≤ ·) ts

/-- Joining of tokens with single spaces, models `.join(' ')`. -/
def joinTokens (ts : List (List Char)) : String :=
  String.intercalate " " (ts.map List.asString)

/-- Transliteration of `normalizeQuestion` (server.js lines 51-58):
lower-case, delete every character outside `[a-z0-9\s]`, split on `/\s+/`
(JavaScript semantics, boundary empty tokens included), sort, and join
with single spaces. -/
def normalizeQuestion (question : String) : String :=
  joinTokens (sortTokens (jsSplitWs ((question.toList.map jsLowerChar).filter keepAlnumWs)))

/-- Modelled from the spec: the normalization algorithm as the
specification words it — "lower-casing q, deleting every character that is
not a lowercase letter, digit, or whitespace, splitting on whitespace
runs, sorting the tokens, and rejoining them with single spaces", where
splitting on whitespace runs yields the maximal non-whitespace runs and
hence no empty tokens. Stated for comparison with `normalizeQuestion`. -/
def specNormalizeQuestion (question : String) : String :=
  joinTokens (sortTokens (specSplitWs ((question.toList.map jsLowerChar).filter keepAlnumWs)))

/-- Occurrence of `pat` as a prefix of `l`, elementwise. -/
def startsWithList : List Char → List Char → Bool
  | [], _ => true
  | _ :: _, [] => false
  | a :: as, b :: bs => a = b && startsWithList as bs

/-- Occurrence of `pat` as a contiguous sublist of `l`; models
`String.prototype.includes`. -/
def subOccurs (pat : List Char) : List Char → Bool
  | [] => pat.isEmpty
  | c :: cs => startsWithList pat (c :: cs) || subOccurs pat cs

/-- Models `s.includes(pat)`. -/
def containsStr (s pat : String) : Bool :=
  subOccurs pat.toList s.toList

/-- Models `s.startsWith(pat)`. -/
def strStartsWith (s pat : String) : Bool :=
  startsWithList pat.toList s.toList

/-- Models `s.endsWith(pat)`. -/
def strEndsWith (s pat : String) : Bool :=
  startsWithList pat.toList.reverse s.toList.reverse

/-! ## Data model -/

/-- Problem object as served to the caller. The fallback-bank entries of
server.js carry no `options` field, which is modelled by `none`. -/
structure Problem where
  question : String
  answer : String
  options : Option (List String)
  type : String
deriving Repr, DecidableEq

/-- Result of `JSON.parse` on a provider completion, restricted to the
fields the server inspects; `none` models an absent field and `some ""`
an empty (falsy) one. -/
structure ProblemData where
  question : Option String
  answer : Option String
  options : Option (List String)
deriving Repr, DecidableEq

/-- Message object inside a provider choice. -/
structure ApiMessage where
  content : Option String
deriving Repr, DecidableEq

/-- One entry of `response.data.choices`. -/
structure ApiChoice where
  message : Option ApiMessage
deriving Repr, DecidableEq

/-- Body of a resolved provider response (`response.data`). -/
structure ApiData where
  choices : Option (List ApiChoice)
deriving Repr, DecidableEq

/-- Outcome of one axios call: either a resolved response with its data,
or a rejection carrying `apiError.response?.status` (none when the
provider was unreachable at network level) and the resolved
`errorMessage` (none when it is not a string). -/
inductive Attempt where
  | ok (data : ApiData)
  | err (status : Option Nat) (errorMessage : Option String)
deriving Repr, DecidableEq

/-- Body of the HTTP response sent to the caller: a Problem JSON body or
an error object, identified by its `error` field. -/
inductive RespBody where
  | problem (p : Problem)
  | error (err : String)
deriving Repr, DecidableEq

/-- HTTP response to the caller; `cacheNoStore` records whether
`res.set('Cache-Control', 'no-store')` was executed for it. -/
structure HttpResponse where
  status : Nat
  body : RespBody
  cacheNoStore : Bool
deriving Repr, DecidableEq

/-- Observable outcome of one request: the response, the resulting
`questionHistory`, and the number of outbound provider calls made. -/
structure RunResult where
  resp : HttpResponse
  hist : List String
  calls : Nat
deriving Repr, DecidableEq

/-- Addition of `n` outbound calls to a result, used to account for an
attempt that ended in a retry. -/
def addCalls (n : Nat) (r : RunResult) : RunResult :=
  { resp := r.resp, hist := r.hist, calls := r.calls + n }

/-- Truthiness of an optional string field (JavaScript: `undefined` and
`''` are falsy). -/
def truthy : Option String → Bool
  | none => false
  | some s => s ≠ ""

/-- Extraction `response.data.choices[0]?.message?.content`. -/
def contentOf (d : ApiData) : Option String :=
  match d.choices with
  | none => none
  | some [] => none
  | some (ch :: _) =>
    match ch.message with
    | none => none
    | some m => m.content

/-- Containment test on the optional error message; false when the
message is not a string (`typeof errorMessage === 'string'` fails). -/
def msgContains (m : Option String) (pat : String) : Bool :=
  match m with
  | none => false
  | some s => containsStr s pat

/-! ## Fallback bank (server.js lines 21-48) -/

/-- Static fallback bank `fallbackProblems`: grade `'10'` with four topic
lists; every other lookup is absent. -/
def fallbackProblems (grade topic : String) : Option (List Problem) :=
  if grade = "10" then
    if topic = "geometry" then some [
      { question := "What is the area of a triangle with base 6 cm and height 8 cm?", answer := "24 cm²", options := none, type := "geometry" },
      { question := "Find the circumference of a circle with radius 5 cm (use π ≈ 3.14).", answer := "31.4 cm", options := none, type := "geometry" },
      { question := "What is the measure of an interior angle of a regular pentagon?", answer := "108 degrees", options := none, type := "geometry" },
      { question := "A rectangle has a length of 10 cm and a width of 4 cm. What is its perimeter?", answer := "28 cm", options := none, type := "geometry" },
      { question := "What is the area of a circle with diameter 10 cm (use π ≈ 3.14)?", answer := "78.5 cm²", options := none, type := "geometry" },
      { question := "Find the length of the hypotenuse of a right triangle with legs 3 cm and 4 cm.", answer := "5 cm", options := none, type := "geometry" },
      { question := "What is the sum of the interior angles of a hexagon?", answer := "720 degrees", options := none, type := "geometry" }]
    else if topic = "functions" then some [
      { question := "For the function f(x) = 2x + 3, what is f(4)?", answer := "11", options := none, type := "functions" },
      { question := "What is the domain of the function f(x) = 1/(x-2)?", answer := "All real numbers except x = 2", options := none, type := "functions" },
      { question := "Find the slope of the line given by f(x) = -3x + 5.", answer := "-3", options := none, type := "functions" },
      { question := "If f(x) = x², what is f(-3)?", answer := "9", options := none, type := "functions" }]
    else if topic = "trigonometry" then some [
      { question := "In a right triangle, if one angle is 30°, what is the sine of that angle?", answer := "0.5", options := none, type := "trigonometry" },
      { question := "Find the cosine of 60°.", answer := "0.5", options := none, type := "trigonometry" }]
    else if topic = "quadratic equations" then some [
      { question := "Solve the quadratic equation x² - 4x + 4 = 0.", answer := "x = 2", options := none, type := "quadratic equations" },
      { question := "What is the vertex of the parabola y = x² + 2x - 3?", answer := "(-1, -4)", options := none, type := "quadratic equations" }]
    else none
  else none

/-- List actually drawn from on a fallback: the bank entry when present,
else the single synthesized placeholder
(`fallbackProblems[grade]?.[topic] || [...]`, lines 130-132 / 242-244). -/
def fallbackList (grade topic : String) : List Problem :=
  match fallbackProblems grade topic with
  | some l => l
  | none => [{ question := "Fallback problem for grade " ++ grade ++ " (" ++ topic ++ "): Solve a basic problem related to " ++ topic ++ ".",
               answer := "N/A", options := none, type := topic }]

/-- Junk problem returned by `List.getD` out of bounds; unreachable while
the random index is below the fallback-list length. -/
def defaultProblem : Problem :=
  { question := "", answer := "", options := none, type := "" }

/-! ## History update and the retry loop -/

/-- History update on a successful generation (lines 199-202): push the
normalized question, then `shift()` the oldest entry when the length
exceeds 20. -/
def pushHistory (hist : List String) (q : String) : List String :=
  let h := hist ++ [q]
  if h.length > 20 then h.tail else h

/-- Retry condition of one attempt, exactly the conditions of server.js
lines 169-197 and 214-218 that lead to
`setTimeout(() => generateProblem(retryCount + 1, maxRetries), 1000)`:
missing/empty completion content, a structural or JSON parse failure, a
falsy `question`/`answer` field, a duplicate normalized question, or a
rejection with HTTP status 429, 400 or 500. -/
def retryable (parse : String → Option ProblemData) (hist : List String) :
    Attempt → Bool
  | .ok data =>
    match contentOf data with
    | none => true
    | some content =>
      if content = "" then true
      else if !(strStartsWith content "\x7b" && strEndsWith content "\x7d") then true
      else match parse content with
        | none => true
        | some pd =>
          if !(truthy pd.question && truthy pd.answer) then true
          else hist.contains (normalizeQuestion (pd.question.getD ""))
  | .err status _ => status = some 429 || status = some 400 || status = some 500

/-- Core of `generateProblem` (server.js lines 127-249). The recursion of
the source advances `retryCount` towards `maxRetries`; here the same
recursion is driven structurally by the remaining budget
`maxRetries - retryCount`, with `retryCount` still passed along to index
the attempt oracle. `attempts n` is the outcome of the axios call on
attempt `n`, `parse` is the `JSON.parse` oracle (`none` models a throw),
and `fbIdx` is the value of `Math.floor(Math.random() * fallback.length)`
used on the fallback paths. -/
def generateProblemAux (normalizedGrade normalizedTopic : String)
    (attempts : Nat → Attempt) (parse : String → Option ProblemData)
    (fbIdx : Nat) : Nat → Nat → List String → RunResult
  | 0, _retryCount, hist =>
    { resp := { status := 200,
                body := .problem ((fallbackList normalizedGrade normalizedTopic).getD fbIdx defaultProblem),
                cacheNoStore := false },
      hist := hist, calls := 0 }
  | remaining + 1, retryCount, hist =>
    match attempts retryCount with
    | .ok data =>
      match contentOf data with
      | none =>
        addCalls 1 (generateProblemAux normalizedGrade normalizedTopic attempts parse fbIdx remaining (retryCount + 1) hist)
      | some content =>
        if content = "" then
          addCalls 1 (generateProblemAux normalizedGrade normalizedTopic attempts parse fbIdx remaining (retryCount + 1) hist)
        else if !(strStartsWith content "\x7b" && strEndsWith content "\x7d") then
          addCalls 1 (generateProblemAux normalizedGrade normalizedTopic attempts parse fbIdx remaining (retryCount + 1) hist)
        else match parse content with
          | none =>
            addCalls 1 (generateProblemAux normalizedGrade normalizedTopic attempts parse fbIdx remaining (retryCount + 1) hist)
          | some problemData =>
            if !(truthy problemData.question && truthy problemData.answer) then
              addCalls 1 (generateProblemAux normalizedGrade normalizedTopic attempts parse fbIdx remaining (retryCount + 1) hist)
            else
              let normalizedQuestion := normalizeQuestion (problemData.question.getD "")
              if hist.contains normalizedQuestion then
                addCalls 1 (generateProblemAux normalizedGrade normalizedTopic attempts parse fbIdx remaining (retryCount + 1) hist)
              else
                { resp := { status := 200,
                            body := .problem { question := problemData.question.getD "",
                                               answer := problemData.answer.getD "",
                                               options := problemData.options,
                                               type := normalizedTopic },
                            cacheNoStore := true },
                  hist := pushHistory hist normalizedQuestion, calls := 1 }
    | .err status errorMessage =>
      if status = some 429 || status = some 400 || status = some 500 then
        addCalls 1 (generateProblemAux normalizedGrade normalizedTopic attempts parse fbIdx remaining (retryCount + 1) hist)
      else if status = some 404 && msgContains errorMessage "model" then
        { resp := { status := 400, body := .error "Model access error", cacheNoStore := false },
          hist := hist, calls := 1 }
      else if status = some 404 && msgContains errorMessage "resource was not found" then
        { resp := { status := 400, body := .error "API endpoint error", cacheNoStore := false },
          hist := hist, calls := 1 }
      else
        { resp := { status := 200,
                    body := .problem ((fallbackList normalizedGrade normalizedTopic).getD fbIdx defaultProblem),
                    cacheNoStore := false },
          hist := hist, calls := 1 }

/-- Wrapper with the source's `(retryCount, maxRetries)` interface; the
handler invokes it as `generateProblem(0, 7)` with `maxRetries = 7`. -/
def generateProblem (normalizedGrade normalizedTopic : String)
    (attempts : Nat → Attempt) (parse : String → Option ProblemData)
    (fbIdx : Nat) (retryCount maxRetries : Nat) (hist : List String) : RunResult :=
  generateProblemAux normalizedGrade normalizedTopic attempts parse fbIdx
    (maxRetries - retryCount) retryCount hist

/-! ## Request handler (server.js lines 100-251) -/

/-- Transliteration of the `/generate-problem` handler. `dec` models the
external JavaScript builtin `decodeURIComponent`, `cur` models the
curriculum map, loaded from `../MathApp/public/curriculum-map.json`
outside `src/` (modelled from the spec: an arbitrary static mapping from
grade to the list of valid topic names), and `apiKeyPresent` is the
truthiness of `process.env.XAI_API_KEY`. -/
def handleGenerateProblem (dec : String → String)
    (cur : String → Option (List String)) (apiKeyPresent : Bool)
    (gradeQ topicQ : Option String) (attempts : Nat → Attempt)
    (parse : String → Option ProblemData) (fbIdx : Nat)
    (hist : List String) : RunResult :=
  let normalizedTopic := match topicQ with
    | none => ""
    | some t => if t = "" then "" else jsToLower (jsTrim (dec t))
  let normalizedGrade := match gradeQ with
    | none => ""
    | some g => g
  if normalizedGrade = "" || normalizedTopic = "" then
    { resp := { status := 400,
                body := .error ("Missing grade (" ++ normalizedGrade ++ ") or topic (" ++ normalizedTopic ++ ")"),
                cacheNoStore := false },
      hist := hist, calls := 0 }
  else
    match cur normalizedGrade with
    | none =>
      { resp := { status := 400,
                  body := .error ("Invalid grade (" ++ normalizedGrade ++ ") or topic (" ++ normalizedTopic ++ ")"),
                  cacheNoStore := false },
        hist := hist, calls := 0 }
    | some topics =>
      if !((topics.map jsToLower).contains normalizedTopic) then
        { resp := { status := 400,
                    body := .error ("Invalid grade (" ++ normalizedGrade ++ ") or topic (" ++ normalizedTopic ++ ")"),
                    cacheNoStore := false },
          hist := hist, calls := 0 }
      else if !apiKeyPresent then
        { resp := { status := 500,
                    body := .error "Server configuration error: Missing API key",
                    cacheNoStore := false },
          hist := hist, calls := 0 }
      else
        generateProblem normalizedGrade normalizedTopic attempts parse fbIdx 0 7 hist

/-! ## Helper lemmas about the history buffer -/

theorem pushHistory_length_le (hist : List String) (q : String)
    (h : hist.length ≤ 20) : (pushHistory hist q).length ≤ 20 := by
  by_cases hc : 20 < hist.length + 1
  · simp [pushHistory, hc]
    omega
  · simp [pushHistory, hc]
    omega

theorem pushHistory_of_lt (hist : List String) (q : String)
    (h : hist.length < 20) : pushHistory hist q = hist ++ [q] := by
  have hc : ¬ 20 < hist.length + 1 := by omega
  simp [pushHistory, hc]

theorem pushHistory_at_capacity (hist : List String) (q : String)
    (h : hist.length = 20) : pushHistory hist q = hist.tail ++ [q] := by
  cases hist with
  | nil => simp at h
  | cons a l =>
    have h19 : l.length = 19 := by simpa using h
    simp [pushHistory, h19]

theorem foldl_pushHistory (qs : List String) : ∀ (hist : List String),
    hist.length ≤ 20 →
    List.foldl pushHistory hist qs =
      (hist ++ qs).drop (hist.length + qs.length - 20) := by
  induction qs with
  | nil =>
    intro hist h
    simp [List.foldl, Nat.sub_eq_zero_of_le h]
  | cons q qs ih =>
    intro hist h
    rcases Nat.lt_or_ge hist.length 20 with hlt | hge
    · have hpush := pushHistory_of_lt hist q hlt
      have hlen : (pushHistory hist q).length ≤ 20 := pushHistory_length_le hist q h
      calc List.foldl pushHistory hist (q :: qs)
          = List.foldl pushHistory (pushHistory hist q) qs := by simp [List.foldl]
        _ = ((pushHistory hist q) ++ qs).drop ((pushHistory hist q).length + qs.length - 20) :=
            ih _ hlen
        _ = (hist ++ q :: qs).drop (hist.length + (q :: qs).length - 20) := by
            rw [hpush]
            simp
            congr 1
            omega
    · have heq : hist.length = 20 := Nat.le_antisymm h hge
      have hpush := pushHistory_at_capacity hist q heq
      have hlen : (pushHistory hist q).length ≤ 20 := pushHistory_length_le hist q h
      obtain ⟨a, hist', rfl⟩ : ∃ a l, hist = a :: l := by
        cases hist with
        | nil => simp at heq
        | cons a l => exact ⟨a, l, rfl⟩
      calc List.foldl pushHistory (a :: hist') (q :: qs)
          = List.foldl pushHistory (pushHistory (a :: hist') q) qs := by simp [List.foldl]
        _ = ((pushHistory (a :: hist') q) ++ qs).drop ((pushHistory (a :: hist') q).length + qs.length - 20) :=
            ih _ hlen
        _ = ((a :: hist') ++ q :: qs).drop ((a :: hist').length + (q :: qs).length - 20) := by
            rw [hpush]
            simp at heq ⊢
            rw [show hist'.length + 1 + (qs.length + 1) - 20 = qs.length + 1 by omega]
            rw [show hist'.length + 1 + qs.length - 20 = qs.length by omega]
            rw [List.drop_succ_cons]

/-! ## Helper lemmas about substring occurrence -/

theorem startsWithList_append (p rest : List Char) :
    startsWithList p (p ++ rest) = true := by
  induction p with
  | nil => rfl
  | cons c cs ih => simp [startsWithList, ih]

theorem subOccurs_append (p x y : List Char) :
    subOccurs p (x ++ p ++ y) = true := by
  induction x with
  | nil =>
    cases hpy : p ++ y with
    | nil =>
      have hp : p = [] ∧ y = [] := by simpa using hpy
      simp [hp.1, hp.2, subOccurs, List.isEmpty]
    | cons c cs =>
      simp only [List.nil_append]
      rw [hpy]
      simp [subOccurs]
      left
      rw [← hpy]
      exact startsWithList_append p y
  | cons c cs ih =>
    simp only [List.cons_append]
    simp [subOccurs]
    right
    simpa using ih

theorem containsStr_middle (a s b : String) :
    containsStr (a ++ s ++ b) s = true := by
  unfold containsStr
  have : (a ++ s ++ b).toList = a.toList ++ s.toList ++ b.toList := by
    simp [String.toList]
  rw [this]
  exact subOccurs_append s.toList a.toList b.toList

/-! ## Helper lemmas about the retry loop -/

theorem addCalls_zero (r : RunResult) : addCalls 0 r = r := by
  simp [addCalls]

theorem addCalls_addCalls (m n : Nat) (r : RunResult) :
    addCalls m (addCalls n r) = addCalls (m + n) r := by
  simp [addCalls]
  omega

theorem generateProblemAux_retry_step (g t : String) (attempts : Nat → Attempt)
    (parse : String → Option ProblemData) (fbIdx : Nat)
    (remaining retryCount : Nat) (hist : List String)
    (h : retryable parse hist (attempts retryCount) = true) :
    generateProblemAux g t attempts parse fbIdx (remaining + 1) retryCount hist =
      addCalls 1 (generateProblemAux g t attempts parse fbIdx remaining (retryCount + 1) hist) := by
  simp only [generateProblemAux]
  repeat' split
  all_goals simp_all [retryable]

theorem generateProblemAux_zero (g t : String) (attempts : Nat → Attempt)
    (parse : String → Option ProblemData) (fbIdx : Nat)
    (retryCount : Nat) (hist : List String) :
    generateProblemAux g t attempts parse fbIdx 0 retryCount hist =
      { resp := { status := 200,
                  body := .problem ((fallbackList g t).getD fbIdx defaultProblem),
                  cacheNoStore := false },
        hist := hist, calls := 0 } := rfl

theorem generateProblemAux_retry_steps (g t : String) (attempts : Nat → Attempt)
    (parse : String → Option ProblemData) (fbIdx : Nat) (j : Nat) :
    ∀ (remaining retryCount : Nat) (hist : List String),
    (∀ n, retryCount ≤ n → n < retryCount + j → retryable parse hist (attempts n) = true) →
    generateProblemAux g t attempts parse fbIdx (remaining + j) retryCount hist =
      addCalls j (generateProblemAux g t attempts parse fbIdx remaining (retryCount + j) hist) := by
  induction j with
  | zero =>
    intro remaining retryCount hist _
    simp [addCalls_zero]
  | succ j ih =>
    intro remaining retryCount hist hret
    have h1 : retryable parse hist (attempts retryCount) = true :=
      hret retryCount (Nat.le_refl _) (by omega)
    have hrw : remaining + (j + 1) = (remaining + j) + 1 := by omega
    rw [hrw, generateProblemAux_retry_step g t attempts parse fbIdx (remaining + j) retryCount hist h1]
    rw [ih remaining (retryCount + 1) hist (by intro n hn1 hn2; exact hret n (by omega) (by omega))]
    rw [addCalls_addCalls]
    have : 1 + j = j + 1 := by omega
    rw [this, show retryCount + 1 + j = retryCount + (j + 1) by omega]

theorem generateProblemAux_success_step (g t : String) (attempts : Nat → Attempt)
    (parse : String → Option ProblemData) (fbIdx : Nat)
    (remaining retryCount : Nat) (hist : List String)
    (data : ApiData) (content : String) (pd : ProblemData)
    (hA : attempts retryCount = .ok data)
    (hc : contentOf data = some content)
    (hne : content ≠ "")
    (hjson : (strStartsWith content "\x7b" && strEndsWith content "\x7d") = true)
    (hp : parse content = some pd)
    (hq : truthy pd.question = true) (ha : truthy pd.answer = true)
    (hdup : hist.contains (normalizeQuestion (pd.question.getD "")) = false) :
    generateProblemAux g t attempts parse fbIdx (remaining + 1) retryCount hist =
      { resp := { status := 200,
                  body := .problem { question := pd.question.getD "",
                                     answer := pd.answer.getD "",
                                     options := pd.options, type := t },
                  cacheNoStore := true },
        hist := pushHistory hist (normalizeQuestion (pd.question.getD "")), calls := 1 } := by
  have hjson' := hjson
  simp at hjson'
  have hdup' := hdup
  simp at hdup'
  simp [generateProblemAux, hA, hc, hp, hne, hjson'.1, hjson'.2, hq, ha, hdup']

theorem generateProblemAux_model_error_step (g t : String) (attempts : Nat → Attempt)
    (parse : String → Option ProblemData) (fbIdx : Nat)
    (remaining retryCount : Nat) (hist : List String) (m : String)
    (hA : attempts retryCount = .err (some 404) (some m))
    (hm : containsStr m "model" = true) :
    generateProblemAux g t attempts parse fbIdx (remaining + 1) retryCount hist =
      { resp := { status := 400, body := .error "Model access error", cacheNoStore := false },
        hist := hist, calls := 1 } := by
  simp [generateProblemAux, hA, msgContains, hm]

theorem generateProblemAux_endpoint_error_step (g t : String) (attempts : Nat → Attempt)
    (parse : String → Option ProblemData) (fbIdx : Nat)
    (remaining retryCount : Nat) (hist : List String) (m : String)
    (hA : attempts retryCount = .err (some 404) (some m))
    (hm : containsStr m "model" = false)
    (hr : containsStr m "resource was not found" = true) :
    generateProblemAux g t attempts parse fbIdx (remaining + 1) retryCount hist =
      { resp := { status := 400, body := .error "API endpoint error", cacheNoStore := false },
        hist := hist, calls := 1 } := by
  simp [generateProblemAux, hA, msgContains, hm, hr]

theorem generateProblemAux_other_error_step (g t : String) (attempts : Nat → Attempt)
    (parse : String → Option ProblemData) (fbIdx : Nat)
    (remaining retryCount : Nat) (hist : List String)
    (status : Option Nat) (msg : Option String)
    (hA : attempts retryCount = .err status msg)
    (h429 : status ≠ some 429) (h400 : status ≠ some 400) (h500 : status ≠ some 500)
    (hmodel : (status = some 404 && msgContains msg "model") = false)
    (hres : (status = some 404 && msgContains msg "resource was not found") = false) :
    generateProblemAux g t attempts parse fbIdx (remaining + 1) retryCount hist =
      { resp := { status := 200,
                  body := .problem ((fallbackList g t).getD fbIdx defaultProblem),
                  cacheNoStore := false },
        hist := hist, calls := 1 } := by
  simp at hmodel hres
  have h1 : ¬(status = some 404 ∧ msgContains msg "model" = true) := by
    rintro ⟨h4, hm⟩
    simp [hmodel h4] at hm
  have h2 : ¬(status = some 404 ∧ msgContains msg "resource was not found" = true) := by
    rintro ⟨h4, hm⟩
    simp [hres h4] at hm
  simp [generateProblemAux, hA, h429, h400, h500, h1, h2]

theorem generateProblemAux_hist_cases (g t : String) (attempts : Nat → Attempt)
    (parse : String → Option ProblemData) (fbIdx : Nat) :
    ∀ (remaining retryCount : Nat) (hist : List String),
    ((generateProblemAux g t attempts parse fbIdx remaining retryCount hist).hist = hist ∧
      (generateProblemAux g t attempts parse fbIdx remaining retryCount hist).resp.cacheNoStore = false) ∨
    (∃ pd : ProblemData, truthy pd.question = true ∧ truthy pd.answer = true ∧
      (generateProblemAux g t attempts parse fbIdx remaining retryCount hist).resp =
        { status := 200,
          body := .problem { question := pd.question.getD "", answer := pd.answer.getD "",
                             options := pd.options, type := t },
          cacheNoStore := true } ∧
      (generateProblemAux g t attempts parse fbIdx remaining retryCount hist).hist =
        pushHistory hist (normalizeQuestion (pd.question.getD ""))) := by
  intro remaining
  induction remaining with
  | zero =>
    intro retryCount hist
    left
    exact ⟨rfl, rfl⟩
  | succ rem ih =>
    intro retryCount hist
    simp only [generateProblemAux]
    repeat' split
    all_goals try exact Or.inl ⟨rfl, rfl⟩
    all_goals try simpa [addCalls] using ih (retryCount + 1) hist
    rename_i x pd hjson hq hdup
    right
    simp at hq
    exact ⟨pd, hq.1, hq.2, rfl, rfl⟩

/-! ## Helper lemmas about whitespace splitting and normalization -/

theorem specSplitWsAux_eq_filter (l : List Char) :
    ∀ (inWs : Bool) (cur : List Char), (inWs = true → cur = []) →
    specSplitWsAux l cur =
      (jsSplitWsAux inWs l cur).filter (fun tok => !tok.isEmpty) := by
  induction l with
  | nil =>
    intro inWs cur _
    cases cur with
    | nil => simp [specSplitWsAux, jsSplitWsAux]
    | cons c cs => simp [specSplitWsAux, jsSplitWsAux]
  | cons c cs ih =>
    intro inWs cur hcur
    by_cases hw : isJsWhitespace c = true
    · cases inWs with
      | true =>
        have hc0 : cur = [] := hcur rfl
        subst hc0
        simp only [specSplitWsAux, jsSplitWsAux, hw, if_true, List.isEmpty_nil, if_pos]
        exact ih true [] (fun _ => rfl)
      | false =>
        by_cases hc : cur = []
        · subst hc
          simp only [specSplitWsAux, jsSplitWsAux, hw, if_true, List.isEmpty_nil, if_pos,
            List.reverse_nil, List.filter_cons]
          simp only [List.isEmpty_nil, Bool.not_true, Bool.false_eq_true, if_false]
          exact ih true [] (fun _ => rfl)
        · have hspec : specSplitWsAux (c :: cs) cur = cur.reverse :: specSplitWsAux cs [] := by
            simp only [specSplitWsAux, hw, if_true]
            rw [if_neg (by simpa [List.isEmpty_iff] using hc)]
          have hjs : jsSplitWsAux false (c :: cs) cur = cur.reverse :: jsSplitWsAux true cs [] := by
            simp only [jsSplitWsAux, hw, if_true]
            rw [if_neg (by simp)]
          rw [hspec, hjs, List.filter_cons,
            if_pos (by simpa [List.isEmpty_iff] using hc)]
          rw [ih true [] (fun _ => rfl)]
    · simp only [specSplitWsAux, jsSplitWsAux, hw, if_false]
      exact ih false (c :: cur) (by simp)

theorem jsSplitWsAux_no_empty (l : List Char) :
    ∀ (inWs : Bool) (cur : List Char),
    (∀ c, l.getLast? = some c → isJsWhitespace c = false) →
    (inWs = true → cur = [] ∧ l ≠ []) →
    (inWs = false → cur = [] → l ≠ [] ∧ (∀ c, l.head? = some c → isJsWhitespace c = false)) →
    ∀ tok, tok ∈ jsSplitWsAux inWs l cur → tok ≠ [] := by
  induction l with
  | nil =>
    intro inWs cur hlast htrue hfalse tok htok
    cases inWs with
    | true => exact absurd (htrue rfl).2 (by simp)
    | false =>
      have hcur : cur ≠ [] := by
        intro hc
        exact absurd (hfalse rfl hc).1 (by simp)
      simp [jsSplitWsAux] at htok
      subst htok
      simpa using hcur
  | cons c cs ih =>
    intro inWs cur hlast htrue hfalse tok htok
    by_cases hw : isJsWhitespace c = true
    · have hcs : cs ≠ [] := by
        intro h0
        subst h0
        have hl := hlast c (by simp)
        rw [hw] at hl
        cases hl
      have hlast' : ∀ c2, cs.getLast? = some c2 → isJsWhitespace c2 = false := by
        intro c2 h2
        apply hlast
        cases cs with
        | nil => simp at h2
        | cons d ds => rw [List.getLast?_cons_cons]; exact h2
      cases inWs with
      | true =>
        obtain ⟨hc0, -⟩ := htrue rfl
        subst hc0
        simp only [jsSplitWsAux, hw, if_true] at htok
        exact ih true [] hlast' (fun _ => ⟨rfl, hcs⟩) (by simp) tok htok
      | false =>
        simp only [jsSplitWsAux, hw, if_true] at htok
        rcases List.mem_cons.mp htok with h1 | h2
        · subst h1
          have hcur : cur ≠ [] := by
            intro hc
            have hh := (hfalse rfl hc).2 c (by simp)
            rw [hw] at hh
            cases hh
          simpa using hcur
        · exact ih true [] hlast' (fun _ => ⟨rfl, hcs⟩) (by simp) tok h2
    · simp only [jsSplitWsAux, hw, if_false] at htok
      refine ih false (c :: cur) ?_ (by simp) ?_ tok htok
      · intro c2 h2
        apply hlast
        cases cs with
        | nil => simp at h2
        | cons d ds => rw [List.getLast?_cons_cons]; exact h2
      · intro _ hc
        simp at hc

theorem jsSplitWs_eq_spec_of_boundary (l : List Char)
    (hhead : ∀ c, l.head? = some c → isJsWhitespace c = false)
    (hlast : ∀ c, l.getLast? = some c → isJsWhitespace c = false)
    (hne : l ≠ []) :
    specSplitWs l = jsSplitWs l := by
  rw [specSplitWs, jsSplitWs, specSplitWsAux_eq_filter l false [] (by simp)]
  apply List.filter_eq_self.mpr
  intro tok htok
  have hne' := jsSplitWsAux_no_empty l false [] hlast (by simp)
    (fun _ _ => ⟨hne, hhead⟩) tok htok
  simpa using hne'

theorem sortTokens_eq_of_perm (ts ts' : List (List Char)) (h : ts.Perm ts') :
    sortTokens ts = sortTokens ts' := by
  unfold sortTokens
  exact List.eq_of_perm_of_sorted
    ((List.perm_insertionSort ((· ≤ ·) : List Char → List Char → Prop) ts).trans
      (h.trans (List.perm_insertionSort ((· ≤ ·) : List Char → List Char → Prop) ts').symm))
    (List.sorted_insertionSort ((· ≤ ·) : List Char → List Char → Prop) ts)
    (List.sorted_insertionSort ((· ≤ ·) : List Char → List Char → Prop) ts')

theorem normalizeQuestion_eq_of_perm (q q' : String)
    (h : (jsSplitWs ((q.toList.map jsLowerChar).filter keepAlnumWs)).Perm
         (jsSplitWs ((q'.toList.map jsLowerChar).filter keepAlnumWs))) :
    normalizeQuestion q = normalizeQuestion q' := by
  unfold normalizeQuestion
  rw [sortTokens_eq_of_perm _ _ h]

theorem truthy_getD_ne (o : Option String) (h : truthy o = true) : o.getD "" ≠ "" := by
  cases o with
  | none => simp [truthy] at h
  | some s => simpa [truthy] using h

theorem generateProblemAux_problem_cases (g t : String) (attempts : Nat → Attempt)
    (parse : String → Option ProblemData) (fbIdx : Nat)
    (remaining retryCount : Nat) (hist : List String) :
    ((generateProblemAux g t attempts parse fbIdx remaining retryCount hist).hist = hist ∧
     (generateProblemAux g t attempts parse fbIdx remaining retryCount hist).resp.cacheNoStore = false) ∨
    (∃ p : Problem,
      (generateProblemAux g t attempts parse fbIdx remaining retryCount hist).resp.status = 200 ∧
      (generateProblemAux g t attempts parse fbIdx remaining retryCount hist).resp.cacheNoStore = true ∧
      (generateProblemAux g t attempts parse fbIdx remaining retryCount hist).resp.body = RespBody.problem p ∧
      p.question ≠ "" ∧ p.answer ≠ "" ∧ p.type = t ∧
      (generateProblemAux g t attempts parse fbIdx remaining retryCount hist).hist =
        pushHistory hist (normalizeQuestion p.question)) := by
  rcases generateProblemAux_hist_cases g t attempts parse fbIdx remaining retryCount hist with
    ⟨h1, h2⟩ | ⟨pd, hq, ha, hresp, hhist⟩
  · exact Or.inl ⟨h1, h2⟩
  · right
    refine ⟨{ question := pd.question.getD "", answer := pd.answer.getD "",
              options := pd.options, type := t }, ?_, ?_, ?_, ?_, ?_, rfl, ?_⟩
    · rw [hresp]
    · rw [hresp]
    · rw [hresp]
    · exact truthy_getD_ne _ hq
    · exact truthy_getD_ne _ ha
    · exact hhist

theorem handleGenerateProblem_problem_cases (dec : String → String)
    (cur : String → Option (List String)) (key : Bool)
    (gradeQ topicQ : Option String) (attempts : Nat → Attempt)
    (parse : String → Option ProblemData) (fbIdx : Nat) (hist : List String) :
    ((handleGenerateProblem dec cur key gradeQ topicQ attempts parse fbIdx hist).hist = hist ∧
     (handleGenerateProblem dec cur key gradeQ topicQ attempts parse fbIdx hist).resp.cacheNoStore = false) ∨
    (∃ p : Problem,
      (handleGenerateProblem dec cur key gradeQ topicQ attempts parse fbIdx hist).resp.status = 200 ∧
      (handleGenerateProblem dec cur key gradeQ topicQ attempts parse fbIdx hist).resp.cacheNoStore = true ∧
      (handleGenerateProblem dec cur key gradeQ topicQ attempts parse fbIdx hist).resp.body = RespBody.problem p ∧
      p.question ≠ "" ∧ p.answer ≠ "" ∧
      (handleGenerateProblem dec cur key gradeQ topicQ attempts parse fbIdx hist).hist =
        pushHistory hist (normalizeQuestion p.question)) := by
  simp only [handleGenerateProblem, generateProblem]
  repeat' split
  all_goals try exact Or.inl ⟨rfl, rfl⟩
  all_goals {
    rcases generateProblemAux_problem_cases _ _ _ _ _ _ _ _ with
      ⟨h1, h2⟩ | ⟨p, hs, hcache, hbody, hqne, hane, htype, hhist⟩
    · exact Or.inl ⟨h1, h2⟩
    · exact Or.inr ⟨p, hs, hcache, hbody, hqne, hane, hhist⟩
  }

theorem handleGenerateProblem_fallback_of_retryable
    (dec : String → String) (cur : String → Option (List String))
    (gradeQ topicQ : Option String) (attempts : Nat → Attempt)
    (parse : String → Option ProblemData) (fbIdx : Nat) (hist : List String)
    (g t : String) (topics : List String)
    (hg : gradeQ = some g) (hgne : g ≠ "")
    (ht : topicQ = some t) (htne : t ≠ "")
    (hnt : jsToLower (jsTrim (dec t)) ≠ "")
    (hcur : cur g = some topics)
    (hmem : (topics.map jsToLower).contains (jsToLower (jsTrim (dec t))) = true)
    (hret : ∀ n, retryable parse hist (attempts n) = true) :
    handleGenerateProblem dec cur true gradeQ topicQ attempts parse fbIdx hist =
      { resp := { status := 200,
                  body := .problem ((fallbackList g (jsToLower (jsTrim (dec t)))).getD fbIdx defaultProblem),
                  cacheNoStore := false },
        hist := hist, calls := 7 } := by
  subst hg ht
  have hmem' := hmem
  simp at hmem'
  have hhandle : handleGenerateProblem dec cur true (some g) (some t) attempts parse fbIdx hist =
      generateProblemAux g (jsToLower (jsTrim (dec t))) attempts parse fbIdx 7 0 hist := by
    simp [handleGenerateProblem, generateProblem, hgne, htne, hnt, hcur, hmem']
  rw [hhandle]
  rw [show generateProblemAux g (jsToLower (jsTrim (dec t))) attempts parse fbIdx 7 0 hist =
      generateProblemAux g (jsToLower (jsTrim (dec t))) attempts parse fbIdx (0 + 7) 0 hist from rfl]
  rw [generateProblemAux_retry_steps g (jsToLower (jsTrim (dec t))) attempts parse fbIdx 7 0 0 hist
    (fun n _ _ => hret n)]
  rw [generateProblemAux_zero]
  simp [addCalls]

/-! ## Claim theorems -/

/-- Claim C6: for every request with a valid grade and topic, if no API
key is configured, the endpoint responds HTTP 500 with a
configuration-error message, makes zero outbound provider calls, and does
not return a fallback Problem. -/
theorem missing_api_key_config_error
    (dec : String → String) (cur : String → Option (List String))
    (gradeQ topicQ : Option String) (attempts : Nat → Attempt)
    (parse : String → Option ProblemData) (fbIdx : Nat) (hist : List String)
    (g t : String) (topics : List String)
    (hg : gradeQ = some g) (hgne : g ≠ "")
    (ht : topicQ = some t) (htne : t ≠ "")
    (hnt : jsToLower (jsTrim (dec t)) ≠ "")
    (hcur : cur g = some topics)
    (hmem : (topics.map jsToLower).contains (jsToLower (jsTrim (dec t))) = true) :
    handleGenerateProblem dec cur false gradeQ topicQ attempts parse fbIdx hist =
      { resp := { status := 500,
                  body := .error "Server configuration error: Missing API key",
                  cacheNoStore := false },
        hist := hist, calls := 0 } := by
  subst hg ht
  have hmem' := hmem
  simp at hmem'
  simp [handleGenerateProblem, hgne, htne, hnt, hcur, hmem']

/-- Witness for C6 at a concrete request. -/
theorem missing_api_key_config_error_witness :
    handleGenerateProblem id (fun g => if g = "10" then some ["Geometry"] else none) false
      (some "10") (some "geometry") (fun _ => Attempt.err none none) (fun _ => none) 0 ["x"] =
      { resp := { status := 500,
                  body := .error "Server configuration error: Missing API key",
                  cacheNoStore := false },
        hist := ["x"], calls := 0 } :=
  missing_api_key_config_error id (fun g => if g = "10" then some ["Geometry"] else none)
    (some "10") (some "geometry") (fun _ => Attempt.err none none) (fun _ => none) 0 ["x"]
    "10" "geometry" ["Geometry"] rfl (by decide) rfl (by decide) (by decide) (by decide) (by decide)

/-- Claim C7: every request whose grade or topic is missing, or whose
(grade, topic) pair is not present in the curriculum map (topic compared
case-insensitively), receives HTTP 400 with a descriptive error message,
with no generation attempt, no retries and no fallback Problem. -/
theorem invalid_request_rejected
    (dec : String → String) (cur : String → Option (List String)) (key : Bool)
    (gradeQ topicQ : Option String) (attempts : Nat → Attempt)
    (parse : String → Option ProblemData) (fbIdx : Nat) (hist : List String)
    (h : gradeQ = none ∨ topicQ = none ∨
      ¬ (∃ g t topics, gradeQ = some g ∧ topicQ = some t ∧ cur g = some topics ∧
          (topics.map jsToLower).contains (jsToLower (jsTrim (dec t))) = true)) :
    (handleGenerateProblem dec cur key gradeQ topicQ attempts parse fbIdx hist).resp.status = 400 ∧
    (∃ msg, (handleGenerateProblem dec cur key gradeQ topicQ attempts parse fbIdx hist).resp.body =
      RespBody.error msg) ∧
    (handleGenerateProblem dec cur key gradeQ topicQ attempts parse fbIdx hist).hist = hist ∧
    (handleGenerateProblem dec cur key gradeQ topicQ attempts parse fbIdx hist).calls = 0 := by
  cases gradeQ with
  | none => simp [handleGenerateProblem]
  | some g =>
    cases topicQ with
    | none => simp [handleGenerateProblem]
    | some t =>
      rcases h with h | h | h
      · cases h
      · cases h
      · by_cases hgne : g = ""
        · simp [handleGenerateProblem, hgne]
        · by_cases htne : t = ""
          · simp [handleGenerateProblem, hgne, htne]
          · by_cases hnt : jsToLower (jsTrim (dec t)) = ""
            · simp [handleGenerateProblem, hgne, htne, hnt]
            · cases hcur : cur g with
              | none => simp [handleGenerateProblem, hgne, htne, hnt, hcur]
              | some topics =>
                have hmem : (topics.map jsToLower).contains (jsToLower (jsTrim (dec t))) = false := by
                  by_contra hmem'
                  exact h ⟨g, t, topics, rfl, rfl, hcur, by simpa using hmem'⟩
                simp only [handleGenerateProblem, hgne, htne, hnt, hcur, if_false]
                rw [hmem]
                simp [hnt]

/-- Witness for C7 at a concrete request with an unknown topic. -/
theorem invalid_request_rejected_witness :
    (handleGenerateProblem id (fun g => if g = "10" then some ["Geometry"] else none) true
      (some "10") (some "algebra") (fun _ => Attempt.err none none) (fun _ => none) 0 ["x"]).resp.status = 400 ∧
    (∃ msg, (handleGenerateProblem id (fun g => if g = "10" then some ["Geometry"] else none) true
      (some "10") (some "algebra") (fun _ => Attempt.err none none) (fun _ => none) 0 ["x"]).resp.body =
      RespBody.error msg) ∧
    (handleGenerateProblem id (fun g => if g = "10" then some ["Geometry"] else none) true
      (some "10") (some "algebra") (fun _ => Attempt.err none none) (fun _ => none) 0 ["x"]).hist = ["x"] ∧
    (handleGenerateProblem id (fun g => if g = "10" then some ["Geometry"] else none) true
      (some "10") (some "algebra") (fun _ => Attempt.err none none) (fun _ => none) 0 ["x"]).calls = 0 :=
  invalid_request_rejected id (fun g => if g = "10" then some ["Geometry"] else none) true
    (some "10") (some "algebra") (fun _ => Attempt.err none none) (fun _ => none) 0 ["x"]
    (Or.inr (Or.inr (by
      rintro ⟨g, t, topics, hg, ht, hcur, hmem⟩
      cases hg
      cases ht
      simp at hcur
      subst hcur
      revert hmem
      decide)))

/-- Claim C8: QuestionHistory is mutated only on the success path; on
every retry, configuration-error, and fallback path the history is left
unchanged (the history is the only mutable server state in the model). -/
theorem history_mutated_only_on_success (dec : String → String)
    (cur : String → Option (List String)) (key : Bool)
    (gradeQ topicQ : Option String) (attempts : Nat → Attempt)
    (parse : String → Option ProblemData) (fbIdx : Nat) (hist : List String) :
    (handleGenerateProblem dec cur key gradeQ topicQ attempts parse fbIdx hist).hist = hist ∨
    (∃ p : Problem,
      (handleGenerateProblem dec cur key gradeQ topicQ attempts parse fbIdx hist).resp.status = 200 ∧
      (handleGenerateProblem dec cur key gradeQ topicQ attempts parse fbIdx hist).resp.cacheNoStore = true ∧
      (handleGenerateProblem dec cur key gradeQ topicQ attempts parse fbIdx hist).resp.body = RespBody.problem p ∧
      (handleGenerateProblem dec cur key gradeQ topicQ attempts parse fbIdx hist).hist =
        pushHistory hist (normalizeQuestion p.question)) := by
  rcases handleGenerateProblem_problem_cases dec cur key gradeQ topicQ attempts parse fbIdx hist with
    ⟨h1, _⟩ | ⟨p, hs, hcache, hbody, _, _, hhist⟩
  · exact Or.inl h1
  · exact Or.inr ⟨p, hs, hcache, hbody, hhist⟩

theorem containsStr_of_toList (s sub : String) (pre post : List Char)
    (h : s.toList = pre ++ sub.toList ++ post) : containsStr s sub = true := by
  unfold containsStr
  rw [h]
  exact subOccurs_append _ _ _

/-- Claim C1 (amended): if every provider call yields invalid data or a
transient HTTP status (429, 400 or 500), the endpoint returns, after
exactly 7 attempts, a Problem selected by the random index out of
FallbackBank[grade][topic] when that list exists, and otherwise out of
the single-element list holding a synthesized placeholder whose question
names the grade and the topic. (The original claim also promised 7
attempts for a provider-unreachable failure; an axios rejection without
an HTTP status actually takes the immediate-fallback branch on its first
attempt, see the counterexample.) -/
theorem fallback_after_seven_retryable_attempts
    (dec : String → String) (cur : String → Option (List String))
    (gradeQ topicQ : Option String) (attempts : Nat → Attempt)
    (parse : String → Option ProblemData) (fbIdx : Nat) (hist : List String)
    (g t : String) (topics : List String)
    (hg : gradeQ = some g) (hgne : g ≠ "")
    (ht : topicQ = some t) (htne : t ≠ "")
    (hnt : jsToLower (jsTrim (dec t)) ≠ "")
    (hcur : cur g = some topics)
    (hmem : (topics.map jsToLower).contains (jsToLower (jsTrim (dec t))) = true)
    (hret : ∀ n, retryable parse hist (attempts n) = true)
    (hidx : fbIdx < (fallbackList g (jsToLower (jsTrim (dec t)))).length) :
    handleGenerateProblem dec cur true gradeQ topicQ attempts parse fbIdx hist =
      { resp := { status := 200,
                  body := RespBody.problem
                    ((fallbackList g (jsToLower (jsTrim (dec t)))).getD fbIdx defaultProblem),
                  cacheNoStore := false },
        hist := hist, calls := 7 } ∧
    (fallbackList g (jsToLower (jsTrim (dec t)))).getD fbIdx defaultProblem ∈
      fallbackList g (jsToLower (jsTrim (dec t))) ∧
    (∀ l, fallbackProblems g (jsToLower (jsTrim (dec t))) = some l →
      fallbackList g (jsToLower (jsTrim (dec t))) = l) ∧
    (fallbackProblems g (jsToLower (jsTrim (dec t))) = none →
      ∃ p, fallbackList g (jsToLower (jsTrim (dec t))) = [p] ∧
        containsStr p.question g = true ∧
        containsStr p.question (jsToLower (jsTrim (dec t))) = true) := by
  refine ⟨handleGenerateProblem_fallback_of_retryable dec cur gradeQ topicQ attempts parse fbIdx hist
    g t topics hg hgne ht htne hnt hcur hmem hret, ?_, ?_, ?_⟩
  · rw [List.getD_eq_getElem _ _ hidx]
    exact List.getElem_mem hidx
  · intro l hl
    simp [fallbackList, hl]
  · intro hnone
    refine ⟨{ question := "Fallback problem for grade " ++ g ++ " (" ++ jsToLower (jsTrim (dec t))
                ++ "): Solve a basic problem related to " ++ jsToLower (jsTrim (dec t)) ++ ".",
              answer := "N/A", options := none, type := jsToLower (jsTrim (dec t)) },
      by simp [fallbackList, hnone], ?_, ?_⟩
    · exact containsStr_of_toList _ _ "Fallback problem for grade ".toList
        (" (" ++ jsToLower (jsTrim (dec t)) ++ "): Solve a basic problem related to "
          ++ jsToLower (jsTrim (dec t)) ++ ".").toList
        (by simp [String.toList, String.data_append])
    · exact containsStr_of_toList _ _
        ("Fallback problem for grade " ++ g ++ " (").toList
        ("): Solve a basic problem related to " ++ jsToLower (jsTrim (dec t)) ++ ".").toList
        (by simp [String.toList, String.data_append])

/-- Claim C1 counterexample: with the provider unreachable (an axios
rejection carrying no HTTP status) every provider call fails, yet the
endpoint returns the fallback Problem after a single attempt rather than
after 7. -/
theorem unreachable_provider_immediate_fallback :
    (handleGenerateProblem id (fun g => if g = "10" then some ["geometry"] else none) true
      (some "10") (some "geometry") (fun _ => Attempt.err none (some "connect ECONNREFUSED"))
      (fun _ => none) 0 []).calls = 1 ∧
    (handleGenerateProblem id (fun g => if g = "10" then some ["geometry"] else none) true
      (some "10") (some "geometry") (fun _ => Attempt.err none (some "connect ECONNREFUSED"))
      (fun _ => none) 0 []).calls ≠ 7 := by
  refine ⟨by decide, by decide⟩

/-- Witness for C1 with a provider that always answers HTTP 429. -/
theorem fallback_after_seven_retryable_attempts_witness :
    handleGenerateProblem id (fun g => if g = "10" then some ["geometry"] else none) true
      (some "10") (some "geometry") (fun _ => Attempt.err (some 429) none) (fun _ => none) 3 [] =
      { resp := { status := 200,
                  body := RespBody.problem ((fallbackList "10" "geometry").getD 3 defaultProblem),
                  cacheNoStore := false },
        hist := [], calls := 7 } := by
  have h := fallback_after_seven_retryable_attempts id
    (fun g => if g = "10" then some ["geometry"] else none)
    (some "10") (some "geometry") (fun _ => Attempt.err (some 429) none) (fun _ => none) 3 []
    "10" "geometry" ["geometry"] rfl (by decide) rfl (by decide) (by decide) rfl (by decide)
    (fun n => by
      show retryable (fun _ => none) [] (Attempt.err (some 429) none) = true
      decide) (by decide)
  exact h.1

/-- Claim C2: an attempt whose parsed question normalizes to an entry
already in QuestionHistory is rejected (nothing returned, nothing pushed)
and retried, and when every attempt is such a duplicate the endpoint
falls back with the history unchanged after the 7-attempt budget; the
normalized comparison identifies any two questions whose lower-cased,
punctuation-stripped texts split into permuted token lists, i.e.
variants differing only in case, punctuation, or word order. -/
theorem duplicates_rejected_then_fallback
    (dec : String → String) (cur : String → Option (List String))
    (gradeQ topicQ : Option String) (attempts : Nat → Attempt)
    (parse : String → Option ProblemData) (fbIdx : Nat) (hist : List String)
    (g t : String) (topics : List String)
    (hg : gradeQ = some g) (hgne : g ≠ "")
    (ht : topicQ = some t) (htne : t ≠ "")
    (hnt : jsToLower (jsTrim (dec t)) ≠ "")
    (hcur : cur g = some topics)
    (hmem : (topics.map jsToLower).contains (jsToLower (jsTrim (dec t))) = true)
    (hdup : ∀ n, ∃ data content pd,
      attempts n = Attempt.ok data ∧ contentOf data = some content ∧ content ≠ "" ∧
      (strStartsWith content "\x7b" && strEndsWith content "\x7d") = true ∧
      parse content = some pd ∧ truthy pd.question = true ∧ truthy pd.answer = true ∧
      hist.contains (normalizeQuestion (pd.question.getD "")) = true) :
    handleGenerateProblem dec cur true gradeQ topicQ attempts parse fbIdx hist =
      { resp := { status := 200,
                  body := RespBody.problem
                    ((fallbackList g (jsToLower (jsTrim (dec t)))).getD fbIdx defaultProblem),
                  cacheNoStore := false },
        hist := hist, calls := 7 } ∧
    (∀ q q', (jsSplitWs ((q.toList.map jsLowerChar).filter keepAlnumWs)).Perm
        (jsSplitWs ((q'.toList.map jsLowerChar).filter keepAlnumWs)) →
      normalizeQuestion q = normalizeQuestion q') := by
  constructor
  · apply handleGenerateProblem_fallback_of_retryable dec cur gradeQ topicQ attempts parse fbIdx hist
      g t topics hg hgne ht htne hnt hcur hmem
    intro n
    obtain ⟨data, content, pd, hA, hc, hne, hjson, hp, hq, ha, hcontains⟩ := hdup n
    simp [retryable, hA, hc, hne, hjson, hp, hq, ha]
    simpa using hcontains
  · exact normalizeQuestion_eq_of_perm

/-- Witness for C2: the stored entry comes from "What is 2 + 2?" and the
provider repeats it as "2 + 2. what is?", a case/punctuation/word-order
variant; the endpoint falls back with the history unchanged. -/
theorem duplicates_rejected_then_fallback_witness :
    handleGenerateProblem id (fun g => if g = "10" then some ["geometry"] else none) true
      (some "10") (some "geometry")
      (fun _ => Attempt.ok { choices := some [{ message := some { content := some "\x7bq\x7d" } }] })
      (fun _ => some { question := some "2 + 2. what is?", answer := some "4", options := none })
      0 [normalizeQuestion "What is 2 + 2?"] =
      { resp := { status := 200,
                  body := RespBody.problem ((fallbackList "10" "geometry").getD 0 defaultProblem),
                  cacheNoStore := false },
        hist := [normalizeQuestion "What is 2 + 2?"], calls := 7 } := by
  have h := duplicates_rejected_then_fallback id
    (fun g => if g = "10" then some ["geometry"] else none)
    (some "10") (some "geometry")
    (fun _ => Attempt.ok { choices := some [{ message := some { content := some "\x7bq\x7d" } }] })
    (fun _ => some { question := some "2 + 2. what is?", answer := some "4", options := none })
    0 [normalizeQuestion "What is 2 + 2?"]
    "10" "geometry" ["geometry"] rfl (by decide) rfl (by decide) (by decide) rfl (by decide)
    (fun n => ⟨_, _, _, rfl, rfl, by decide, by decide, rfl, by decide, by decide, by decide⟩)
  exact h.1

/-- Claim C3: QuestionHistory never exceeds 20 entries, eviction is FIFO
(pushing onto a full history drops the oldest entry first), after 25
successful pushes starting from empty exactly the 20 most recent entries
remain in order, and the handler only ever pushes normalized questions
onto the history. -/
theorem questionHistory_bounded_fifo :
    (∀ (hist : List String) (q : String), hist.length ≤ 20 →
      (pushHistory hist q).length ≤ 20 ∧
      (hist.length = 20 → pushHistory hist q = hist.tail ++ [q]) ∧
      (hist.length < 20 → pushHistory hist q = hist ++ [q])) ∧
    (∀ qs : List String, qs.length = 25 → List.foldl pushHistory [] qs = qs.drop 5) ∧
    (∀ (dec : String → String) (cur : String → Option (List String)) (key : Bool)
       (gradeQ topicQ : Option String) (attempts : Nat → Attempt)
       (parse : String → Option ProblemData) (fbIdx : Nat) (hist : List String),
      (handleGenerateProblem dec cur key gradeQ topicQ attempts parse fbIdx hist).hist = hist ∨
      ∃ q, (handleGenerateProblem dec cur key gradeQ topicQ attempts parse fbIdx hist).hist =
        pushHistory hist (normalizeQuestion q)) := by
  refine ⟨?_, ?_, ?_⟩
  · intro hist q h
    exact ⟨pushHistory_length_le hist q h,
      fun h20 => pushHistory_at_capacity hist q h20,
      fun hlt => pushHistory_of_lt hist q hlt⟩
  · intro qs h25
    have hfold := foldl_pushHistory qs [] (by simp)
    simpa [h25] using hfold
  · intro dec cur key gradeQ topicQ attempts parse fbIdx hist
    rcases handleGenerateProblem_problem_cases dec cur key gradeQ topicQ attempts parse fbIdx hist with
      ⟨h1, _⟩ | ⟨p, _, _, _, _, _, hhist⟩
    · exact Or.inl h1
    · exact Or.inr ⟨p.question, hhist⟩

/-- Witness for C3 on concrete histories of lengths 20 and 25. -/
theorem questionHistory_bounded_fifo_witness :
    pushHistory (List.replicate 20 "x") "q" = (List.replicate 20 "x").tail ++ ["q"] ∧
    List.foldl pushHistory [] (List.replicate 25 "y") = (List.replicate 25 "y").drop 5 :=
  ⟨(questionHistory_bounded_fifo.1 (List.replicate 20 "x") "q" (by decide)).2.1 (by decide),
   questionHistory_bounded_fifo.2.1 (List.replicate 25 "y") (by decide)⟩

/-- Claim C4 (amended): normalizeQuestion coincides with the algorithm
worded by the spec (lower-case, delete characters outside lowercase
letters, digits and whitespace, split into maximal non-whitespace runs,
sort, rejoin with single spaces) whenever the lower-cased filtered text
does not begin or end with a whitespace character; when it does,
JavaScript split(/\s+/) additionally yields boundary empty tokens, which
sort first and leave leading space(s) in the result - see the
counterexample. Word-order/case/punctuation insensitivity is stated with
claim C2. -/
theorem normalizeQuestion_matches_spec_wording (q : String)
    (hb : noBoundaryWs ((q.toList.map jsLowerChar).filter keepAlnumWs) = true) :
    normalizeQuestion q = specNormalizeQuestion q := by
  by_cases h0 : ((q.toList.map jsLowerChar).filter keepAlnumWs) = []
  · unfold normalizeQuestion specNormalizeQuestion
    rw [h0]
    rfl
  · simp only [noBoundaryWs, Bool.and_eq_true] at hb
    have hhead : ∀ c, ((q.toList.map jsLowerChar).filter keepAlnumWs).head? = some c →
        isJsWhitespace c = false := by
      intro c hc
      have hb1 := hb.1
      rw [hc] at hb1
      simpa using hb1
    have hlast : ∀ c, ((q.toList.map jsLowerChar).filter keepAlnumWs).getLast? = some c →
        isJsWhitespace c = false := by
      intro c hc
      have hb2 := hb.2
      rw [hc] at hb2
      simpa using hb2
    unfold normalizeQuestion specNormalizeQuestion
    rw [jsSplitWs_eq_spec_of_boundary _ hhead hlast h0]

/-- Claim C4 counterexample: on the input " a" the code's split keeps the
boundary empty token produced by JavaScript split(/\s+/), giving " a",
while the algorithm as the spec words it (tokens are the maximal
non-whitespace runs) gives "a". -/
theorem normalizeQuestion_spec_wording_mismatch :
    normalizeQuestion " a" = " a" ∧ specNormalizeQuestion " a" = "a" ∧
      normalizeQuestion " a" ≠ specNormalizeQuestion " a" :=
  ⟨by decide, by decide, by decide⟩

/-- Witness for C4 at an ordinary question string. -/
theorem normalizeQuestion_matches_spec_wording_witness :
    noBoundaryWs ((("What is 2 + 2?").toList.map jsLowerChar).filter keepAlnumWs) = true ∧
    normalizeQuestion "What is 2 + 2?" = specNormalizeQuestion "What is 2 + 2?" :=
  ⟨by decide, normalizeQuestion_matches_spec_wording "What is 2 + 2?" (by decide)⟩

/-- Claim C5 (amended): a provider failure with HTTP status 429, 400 or
500 triggers a retry instead of an error response; a 404 failure whose
error message contains "model" immediately yields HTTP 400 with error
Model access error; a 404 failure whose message contains "resource was
not found" and does not contain "model" immediately yields HTTP 400 with
error API endpoint error; the 404 branches make exactly one call, keep
the history unchanged and return no fallback Problem. (The original
claim ignored the precedence of the "model" check over the "resource was
not found" check, see the counterexample; the 1-second pause before a
retry is a timing property outside this model.) -/
theorem provider_status_branching :
    (∀ (g t : String) (attempts : Nat → Attempt) (parse : String → Option ProblemData)
       (fbIdx remaining retryCount : Nat) (hist : List String) (s : Nat) (msg : Option String),
      attempts retryCount = Attempt.err (some s) msg → (s = 429 ∨ s = 400 ∨ s = 500) →
      generateProblemAux g t attempts parse fbIdx (remaining + 1) retryCount hist =
        addCalls 1 (generateProblemAux g t attempts parse fbIdx remaining (retryCount + 1) hist)) ∧
    (∀ (g t : String) (attempts : Nat → Attempt) (parse : String → Option ProblemData)
       (fbIdx remaining retryCount : Nat) (hist : List String) (m : String),
      attempts retryCount = Attempt.err (some 404) (some m) → containsStr m "model" = true →
      generateProblemAux g t attempts parse fbIdx (remaining + 1) retryCount hist =
        { resp := { status := 400, body := RespBody.error "Model access error", cacheNoStore := false },
          hist := hist, calls := 1 }) ∧
    (∀ (g t : String) (attempts : Nat → Attempt) (parse : String → Option ProblemData)
       (fbIdx remaining retryCount : Nat) (hist : List String) (m : String),
      attempts retryCount = Attempt.err (some 404) (some m) →
      containsStr m "model" = false → containsStr m "resource was not found" = true →
      generateProblemAux g t attempts parse fbIdx (remaining + 1) retryCount hist =
        { resp := { status := 400, body := RespBody.error "API endpoint error", cacheNoStore := false },
          hist := hist, calls := 1 }) := by
  refine ⟨?_, ?_, ?_⟩
  · intro g t attempts parse fbIdx remaining retryCount hist s msg hA hs
    apply generateProblemAux_retry_step
    rcases hs with rfl | rfl | rfl <;> simp [retryable, hA]
  · intro g t attempts parse fbIdx remaining retryCount hist m hA hm
    exact generateProblemAux_model_error_step g t attempts parse fbIdx remaining retryCount hist m hA hm
  · intro g t attempts parse fbIdx remaining retryCount hist m hA hm hr
    exact generateProblemAux_endpoint_error_step g t attempts parse fbIdx remaining retryCount hist m hA hm hr

/-- Claim C5 counterexample: a 404 whose error message contains both
"model" and "resource was not found" returns error Model access error,
while the claim promises API endpoint error for every message containing
"resource was not found". -/
theorem model_check_precedes_resource_check :
    containsStr "The model resource was not found" "resource was not found" = true ∧
    (generateProblemAux "10" "geometry"
      (fun _ => Attempt.err (some 404) (some "The model resource was not found"))
      (fun _ => none) 0 1 0 []).resp.body = RespBody.error "Model access error" ∧
    (generateProblemAux "10" "geometry"
      (fun _ => Attempt.err (some 404) (some "The model resource was not found"))
      (fun _ => none) 0 1 0 []).resp.body ≠ RespBody.error "API endpoint error" :=
  ⟨by decide, by decide, by decide⟩

/-- Witness for C5: the model-error branch at a concrete 404 message. -/
theorem provider_status_branching_witness :
    generateProblemAux "10" "geometry"
      (fun _ => Attempt.err (some 404) (some "The model grok-3 does not exist"))
      (fun _ => none) 0 3 0 [] =
      { resp := { status := 400, body := RespBody.error "Model access error", cacheNoStore := false },
        hist := [], calls := 1 } := by
  have h := provider_status_branching.2.1 "10" "geometry"
    (fun _ => Attempt.err (some 404) (some "The model grok-3 does not exist")) (fun _ => none)
    0 2 0 [] "The model grok-3 does not exist" rfl (by decide)
  exact h

/-- Claim C9: on every successful attempt (parsed object with truthy
question and answer whose normalized question is not yet in the history)
the endpoint pushes the normalized question onto QuestionHistory, sets
the Cache-Control response header to no-store, and returns the parsed
object with its type field equal to the lower-cased trimmed topic; the
returned question and answer are non-empty. -/
theorem success_returns_problem_and_updates_history
    (dec : String → String) (cur : String → Option (List String))
    (gradeQ topicQ : Option String) (attempts : Nat → Attempt)
    (parse : String → Option ProblemData) (fbIdx : Nat) (hist : List String)
    (g t : String) (topics : List String) (k : Nat)
    (data : ApiData) (content : String) (pd : ProblemData)
    (hg : gradeQ = some g) (hgne : g ≠ "")
    (ht : topicQ = some t) (htne : t ≠ "")
    (hnt : jsToLower (jsTrim (dec t)) ≠ "")
    (hcur : cur g = some topics)
    (hmem : (topics.map jsToLower).contains (jsToLower (jsTrim (dec t))) = true)
    (hk : k < 7)
    (hprev : ∀ n, n < k → retryable parse hist (attempts n) = true)
    (hA : attempts k = Attempt.ok data)
    (hc : contentOf data = some content) (hne : content ≠ "")
    (hjson : (strStartsWith content "\x7b" && strEndsWith content "\x7d") = true)
    (hp : parse content = some pd)
    (hq : truthy pd.question = true) (ha : truthy pd.answer = true)
    (hdup : hist.contains (normalizeQuestion (pd.question.getD "")) = false) :
    handleGenerateProblem dec cur true gradeQ topicQ attempts parse fbIdx hist =
      { resp := { status := 200,
                  body := RespBody.problem
                    { question := pd.question.getD "", answer := pd.answer.getD "",
                      options := pd.options, type := jsToLower (jsTrim (dec t)) },
                  cacheNoStore := true },
        hist := pushHistory hist (normalizeQuestion (pd.question.getD "")), calls := k + 1 } ∧
    pd.question.getD "" ≠ "" ∧ pd.answer.getD "" ≠ "" := by
  subst hg ht
  have hmem' := hmem
  simp at hmem'
  have hhandle : handleGenerateProblem dec cur true (some g) (some t) attempts parse fbIdx hist =
      generateProblemAux g (jsToLower (jsTrim (dec t))) attempts parse fbIdx 7 0 hist := by
    simp [handleGenerateProblem, generateProblem, hgne, htne, hnt, hcur, hmem']
  refine ⟨?_, truthy_getD_ne _ hq, truthy_getD_ne _ ha⟩
  rw [hhandle]
  rw [show generateProblemAux g (jsToLower (jsTrim (dec t))) attempts parse fbIdx 7 0 hist =
      generateProblemAux g (jsToLower (jsTrim (dec t))) attempts parse fbIdx ((7 - k) + k) 0 hist by
    rw [show (7 - k) + k = 7 by omega]]
  rw [generateProblemAux_retry_steps g (jsToLower (jsTrim (dec t))) attempts parse fbIdx k (7 - k) 0 hist
    (fun n hn1 hn2 => hprev n (by omega))]
  rw [show (0 + k) = k by omega]
  rw [show (7 - k) = (7 - k - 1) + 1 by omega]
  rw [generateProblemAux_success_step g (jsToLower (jsTrim (dec t))) attempts parse fbIdx
    (7 - k - 1) k hist data content pd hA hc hne hjson hp hq ha hdup]
  simp [addCalls, Nat.add_comm]

/-- Witness for C9: one 429 retry followed by a successful generation. -/
theorem success_returns_problem_and_updates_history_witness :
    handleGenerateProblem id (fun g => if g = "10" then some ["geometry"] else none) true
      (some "10") (some "geometry")
      (fun n => if n = 0 then Attempt.err (some 429) none
        else Attempt.ok { choices := some [{ message := some { content := some "\x7bq\x7d" } }] })
      (fun _ => some { question := some "What is 7 times 8?", answer := some "56", options := some [] })
      0 [] =
      { resp := { status := 200,
                  body := RespBody.problem
                    { question := "What is 7 times 8?", answer := "56",
                      options := some [], type := "geometry" },
                  cacheNoStore := true },
        hist := pushHistory [] (normalizeQuestion "What is 7 times 8?"), calls := 2 } := by
  have h := success_returns_problem_and_updates_history id
    (fun g => if g = "10" then some ["geometry"] else none)
    (some "10") (some "geometry")
    (fun n => if n = 0 then Attempt.err (some 429) none
      else Attempt.ok { choices := some [{ message := some { content := some "\x7bq\x7d" } }] })
    (fun _ => some { question := some "What is 7 times 8?", answer := some "56", options := some [] })
    0 [] "10" "geometry" ["geometry"] 1
    { choices := some [{ message := some { content := some "\x7bq\x7d" } }] }
    "\x7bq\x7d" { question := some "What is 7 times 8?", answer := some "56", options := some [] }
    rfl (by decide) rfl (by decide) (by decide) rfl (by decide) (by decide)
    (fun n hn => by
      have hn0 : n = 0 := by omega
      subst hn0
      decide)
    rfl rfl (by decide) (by decide) rfl (by decide) (by decide) (by decide)
  exact h.1

/-- Claim C10: a parsed completion whose question or answer field is
missing, empty, or otherwise falsy is treated exactly like a missing
field - it is never returned to the caller and a retry is triggered -
and consequently a successfully generated Problem (the no-store success
response) never has an empty question or answer. -/
theorem falsy_fields_retry_and_success_nonempty :
    (∀ (g t : String) (attempts : Nat → Attempt) (parse : String → Option ProblemData)
       (fbIdx remaining retryCount : Nat) (hist : List String)
       (data : ApiData) (content : String) (pd : ProblemData),
      attempts retryCount = Attempt.ok data → contentOf data = some content → content ≠ "" →
      (strStartsWith content "\x7b" && strEndsWith content "\x7d") = true →
      parse content = some pd →
      (pd.question = none ∨ pd.question = some "" ∨ pd.answer = none ∨ pd.answer = some "") →
      generateProblemAux g t attempts parse fbIdx (remaining + 1) retryCount hist =
        addCalls 1 (generateProblemAux g t attempts parse fbIdx remaining (retryCount + 1) hist)) ∧
    (∀ (g t : String) (attempts : Nat → Attempt) (parse : String → Option ProblemData)
       (fbIdx remaining retryCount : Nat) (hist : List String),
      (generateProblemAux g t attempts parse fbIdx remaining retryCount hist).resp.cacheNoStore = true →
      ∃ p : Problem,
        (generateProblemAux g t attempts parse fbIdx remaining retryCount hist).resp.body =
          RespBody.problem p ∧ p.question ≠ "" ∧ p.answer ≠ "") := by
  constructor
  · intro g t attempts parse fbIdx remaining retryCount hist data content pd hA hc hne hjson hp hfalsy
    apply generateProblemAux_retry_step
    have hfq : (truthy pd.question && truthy pd.answer) = false := by
      rcases hfalsy with h | h | h | h <;> simp [truthy, h]
    simp [retryable, hA, hc, hne, hjson, hp, hfq]
  · intro g t attempts parse fbIdx remaining retryCount hist hcache
    rcases generateProblemAux_problem_cases g t attempts parse fbIdx remaining retryCount hist with
      ⟨_, h2⟩ | ⟨p, _, _, hbody, hqne, hane, _, _⟩
    · rw [hcache] at h2
      simp at h2
    · exact ⟨p, hbody, hqne, hane⟩

/-- Witness for C10: a completion parsing to an empty answer triggers a
retry at a concrete input. -/
theorem falsy_fields_retry_and_success_nonempty_witness :
    generateProblemAux "10" "geometry"
      (fun _ => Attempt.ok { choices := some [{ message := some { content := some "\x7bq\x7d" } }] })
      (fun _ => some { question := some "Q?", answer := some "", options := none }) 0 1 0 [] =
      addCalls 1 (generateProblemAux "10" "geometry"
        (fun _ => Attempt.ok { choices := some [{ message := some { content := some "\x7bq\x7d" } }] })
        (fun _ => some { question := some "Q?", answer := some "", options := none }) 0 0 1 []) := by
  have h := falsy_fields_retry_and_success_nonempty.1 "10" "geometry"
    (fun _ => Attempt.ok { choices := some [{ message := some { content := some "\x7bq\x7d" } }] })
    (fun _ => some { question := some "Q?", answer := some "", options := none }) 0 0 0 []
    { choices := some [{ message := some { content := some "\x7bq\x7d" } }] } "\x7bq\x7d"
    { question := some "Q?", answer := some "", options := none }
    rfl rfl (by decide) (by decide) rfl (Or.inr (Or.inr (Or.inr rfl)))
  exact h

end LCPS
